import Mathlib

/-!
Verification of the job-lifecycle and notification core of a virtual
try-on backend.  The definitions below are shallow embeddings of the
Python source:

* `ensure_9_16` embeds `ensure_9_16_aspect_ratio`
  (src/poses/services/gemini_scene.py, lines 22-65); only the image
  dimensions matter for the properties considered, so an image is its
  width and height, real arithmetic is modelled exactly over `ℚ`
  (`0.02` is `1/50`, the target `0.5625` is `9/16`), and Python
  `int()` truncation of a non-negative value is `ℕ` division.
* the retry loop of `generate_scene_image` (same file, lines 202-420)
  is embedded as a pure loop over a script of per-attempt outcomes.
* the job record, the Celery worker `generate_tryon_async`
  (src/tryon/tasks.py), the admission view `tryon_v2` and the
  status/reconciliation view `tryon_task_status` (src/tryon/views.py),
  the rate limiters (src/tryon/utils.py, src/users/models.py) and the
  websocket push helper
  (src/v_tryon_backend_v2/websocket_utils.py) are embedded as pure
  state-passing functions.

Django model fields that are `null=True, blank=True` are modelled as
`Option String`, with `none` standing for both SQL NULL and the empty
string: the source only ever tests these fields for Python falsiness
(`if not generated_image_url`, `if task_result.info`), which
identifies the two.
-/

/-- An image, reduced to its pixel dimensions (the only data the
aspect-ratio properties depend on). -/
structure Img where
  width : ℕ
  height : ℕ
deriving DecidableEq, Repr

/-- Embedding of `ensure_9_16_aspect_ratio` (gemini_scene.py 22-65).
The code computes `current_ratio = w / h` against target `9/16` with
tolerance `0.02 = 1/50`.  Within tolerance the image is returned
unchanged; if wider, the width is center-cropped to
`int(h * 0.5625) = 9*h/16` (`ℕ` division); if taller, the height is
center-cropped to `int(w / 0.5625) = 16*w/9`.  The crop box is always
inside the image, so a crop only changes the dimensions. -/
def ensure_9_16 (i : Img) : Img :=
  if |(i.width : ℚ) / (i.height : ℚ) - 9/16| < 1/50 then i
  else if (9 : ℚ)/16 < (i.width : ℚ) / (i.height : ℚ) then
    ⟨9 * i.height / 16, i.height⟩
  else
    ⟨i.width, 16 * i.width / 9⟩

/-- Character-list substring test: `sub` occurs contiguously in the
list. -/
def charsContain : List Char → List Char → Bool
  | [], sub => sub.isEmpty
  | c :: t, sub => List.isPrefixOf sub (c :: t) || charsContain t sub

/-- Substring test, embedding Python `sub in s`. -/
def strContains (s sub : String) : Bool :=
  charsContain s.toList sub.toList

/-- Embedding of Python `str.lower()` as applied to exception
messages: character-wise lowering. -/
def strLower (s : String) : String :=
  ⟨s.data.map Char.toLower⟩

/-- An exception value as the retry loop sees it: whether it is an
instance of `TimeoutError`, and its message (`str(e)`). -/
structure ExcInfo where
  isTimeoutError : Bool
  msg : String
deriving DecidableEq, Repr

/-- Embedding of `is_timeout` (gemini_scene.py 380): the exception is a
`TimeoutError`, or its lowered message contains `"timeout"` or
`"timed out"`. -/
def isTimeoutClass (e : ExcInfo) : Bool :=
  e.isTimeoutError || strContains (strLower e.msg) "timeout"
    || strContains (strLower e.msg) "timed out"

/-- Embedding of `is_network` (gemini_scene.py 381-387) on the lowered
message. -/
def isNetworkClass (e : ExcInfo) : Bool :=
  strContains (strLower e.msg) "network" || strContains (strLower e.msg) "connection"
    || strContains (strLower e.msg) "unavailable"
    || strContains (strLower e.msg) "503" || strContains (strLower e.msg) "502"

/-- Embedding of `is_rate_limit` (gemini_scene.py 388-393) on the
lowered message. -/
def isRateLimitClass (e : ExcInfo) : Bool :=
  strContains (strLower e.msg) "429" || strContains (strLower e.msg) "rate limit"
    || strContains (strLower e.msg) "quota"
    || strContains (strLower e.msg) "resource exhausted"

/-- Outcome of one invocation of the remote Gemini call (one loop
attempt): the call returns a response from which an image is
extracted, the call (or extraction) raises an exception after
`elapsed` seconds, or the background thread never completes within the
timeout budget (`hang`). -/
inductive AttemptOutcome
  | success (img : Img)
  | raiseErr (e : ExcInfo) (elapsed : ℕ)
  | hang
deriving DecidableEq, Repr

/-- Classified failure of `generate_scene_image` after the final
attempt (gemini_scene.py 409-417): `TimeoutError`, rate-limit
`RuntimeError`, `ConnectionError` or generic `RuntimeError`; each
message embeds the elapsed seconds of the last attempt, carried here
as the payload. -/
inductive CallError
  | timeoutErr (elapsed : ℕ)
  | rateLimitedErr (elapsed : ℕ)
  | networkErr (elapsed : ℕ)
  | otherErr (elapsed : ℕ)
deriving DecidableEq, Repr

/-- Embedding of the final-attempt classification order
(gemini_scene.py 409-417): timeout first, then rate limit, then
network, else other. -/
def classifyError (e : ExcInfo) (elapsed : ℕ) : CallError :=
  if isTimeoutClass e then .timeoutErr elapsed
  else if isRateLimitClass e then .rateLimitedErr elapsed
  else if isNetworkClass e then .networkErr elapsed
  else .otherErr elapsed

/-- Backoff delay before a retry (gemini_scene.py 395-404), keyed to
the attempt that just failed: rate-limited failures back off
`min(60 * 2^(attempt-1), 300)` seconds, all others `min(2^attempt,
10)` seconds. -/
def backoffDelay (e : ExcInfo) (attempt : ℕ) : ℕ :=
  if isRateLimitClass e then min (60 * 2 ^ (attempt - 1)) 300
  else min (2 ^ attempt) 10

deriving instance DecidableEq for Except

/-- Result of a run of `generate_scene_image`: the returned image or
classified error, the number of attempts actually made, and the
backoff delays slept between attempts, in order. -/
structure RunResult where
  result : Except CallError Img
  attemptsMade : ℕ
  sleeps : List ℕ
deriving DecidableEq, Repr

/-- Embedding of the retry loop of `generate_scene_image`
(gemini_scene.py 202-420).  `script a` is the outcome of attempt `a`
(attempts counted from 1, as in `range(1, max_retries + 1)`).  On
success the extracted image is normalised with `ensure_9_16` and
returned.  A hang is detected after `timeout` seconds: below the
ceiling the loop sleeps `min(2^attempt, 10)` and retries (line 306);
on the last attempt the raised `TimeoutError` is classified and
re-raised with the elapsed time (lines 311, 411).  A raised exception
below the ceiling sleeps the classified backoff and retries; on the
last attempt it is classified and re-raised.  `fuel` bounds the
recursion; the entry point supplies `maxRetries`, which is never
exhausted because every recursive step requires `attempt <
maxRetries`, and the fuel-out branch mirrors the unreachable final
`RuntimeError` (line 420). -/
def runLoop (script : ℕ → AttemptOutcome) (timeout maxRetries : ℕ) :
    ℕ → ℕ → List ℕ → RunResult
  | fuel, attempt, sleeps =>
    match script attempt with
    | .success img => ⟨.ok (ensure_9_16 img), attempt, sleeps⟩
    | .hang =>
      if attempt < maxRetries then
        match fuel with
        | 0 => ⟨.error (.otherErr 0), attempt, sleeps⟩
        | fuel' + 1 =>
          runLoop script timeout maxRetries fuel' (attempt + 1)
            (sleeps ++ [min (2 ^ attempt) 10])
      else ⟨.error (.timeoutErr timeout), attempt, sleeps⟩
    | .raiseErr e elapsed =>
      if attempt < maxRetries then
        match fuel with
        | 0 => ⟨.error (.otherErr 0), attempt, sleeps⟩
        | fuel' + 1 =>
          runLoop script timeout maxRetries fuel' (attempt + 1)
            (sleeps ++ [backoffDelay e attempt])
      else ⟨.error (classifyError e elapsed), attempt, sleeps⟩

/-- Embedding of `generate_scene_image` restricted to its retry
behaviour: run the loop from attempt 1. -/
def generate_scene_image (script : ℕ → AttemptOutcome)
    (timeout maxRetries : ℕ) : RunResult :=
  runLoop script timeout maxRetries maxRetries 1 []

/-- An attempt outcome that fails by timeout: the background thread
hangs past the budget, or the call raises an exception classified as
a timeout. -/
def timesOut (o : AttemptOutcome) : Prop :=
  o = .hang ∨ ∃ e el, o = .raiseErr e el ∧ isTimeoutClass e = true

/-- Job status enum of `TryonRequest.STATUS_CHOICES`
(src/tryon/models.py 13-18). -/
inductive Status
  | pending
  | processing
  | completed
  | failed
deriving DecidableEq, Repr

/-- The mutable fields of a `TryonRequest` row the lifecycle claims
are about (src/tryon/models.py 12-29). -/
structure TryonRequest where
  status : Status
  generated_image_url : Option String
  error_message : Option String
  task_id : Option String
deriving DecidableEq, Repr

/-- Embedding of Python string slicing `s[:500]` used to bound stored
error messages. -/
def truncate500 (s : String) : String :=
  ⟨s.data.take 500⟩

/-- The record the admission endpoint creates (views.py 246-260):
status `pending`, no generated image (the serializer stores the empty
string), no error. -/
def createJob : TryonRequest :=
  ⟨.pending, none, none, none⟩

/-- A single save performed on the job record by the worker
`generate_tryon_async` (tasks.py): the initial `status = 'processing'`
save (lines 42-43), the success save setting the output URL and
`status = 'completed'` (lines 122-124), and the failure save setting
`status = 'failed'` and the truncated error (lines 157-160).  The
success save does not touch `error_message`, and neither save of a
later attempt clears fields written by an earlier one. -/
inductive JobEvent
  | workerStart
  | workerSuccess (url : String)
  | workerFailure (msg : String)
deriving DecidableEq, Repr

/-- Effect of one worker save on the job record, exactly the field
assignments of tasks.py. -/
def applyEvent (r : TryonRequest) (e : JobEvent) : TryonRequest :=
  match e with
  | .workerStart => { r with status := .processing }
  | .workerSuccess url =>
      { r with generated_image_url := some url, status := .completed }
  | .workerFailure msg =>
      { r with status := .failed, error_message := some (truncate500 msg) }

/-- One full failed worker attempt: the `processing` save followed by
the failure save. -/
def failedAttempt (r : TryonRequest) (msg : String) : TryonRequest :=
  applyEvent (applyEvent r .workerStart) (.workerFailure msg)

/-- A sequence of failed worker attempts (Celery redelivers the task
up to its `max_retries`), applied in order. -/
def runFails : List String → TryonRequest → TryonRequest
  | [], r => r
  | m :: ms, r => runFails ms (failedAttempt r m)

/-- The lifecycle of one job record: created by the admission
endpoint, then a sequence of failed worker attempts, then (when
`final = some url`, the URL returned by the storage upload, checked
non-empty at tasks.py 116-117) one successful attempt: the
`processing` save followed by the success save. -/
def runJob (failures : List String) (final : Option String) : TryonRequest :=
  match final with
  | none => runFails failures createJob
  | some url =>
      applyEvent (applyEvent (runFails failures createJob) .workerStart)
        (.workerSuccess url)

/-- The invariant claimed of every job record: the output reference is
non-null iff the status is `completed`, and the error description is
non-null iff the status is `failed`. -/
def outputErrorInvariant (r : TryonRequest) : Prop :=
  (r.generated_image_url ≠ none ↔ r.status = .completed) ∧
    (r.error_message ≠ none ↔ r.status = .failed)

instance (r : TryonRequest) : Decidable (outputErrorInvariant r) := by
  unfold outputErrorInvariant; infer_instance

/-- A websocket push event as built by `send_websocket_status_update`
(websocket_utils.py 61-127): the payload fields of `message_data`.
Optional fields are added only when truthy, modelled by `Option`. -/
structure PushEvent where
  task_id : String
  task_type : String
  status : Status
  generated_image_url : Option String
  error_message : Option String
  final : Bool
deriving DecidableEq, Repr

/-- Embedding of `send_websocket_status_update` (websocket_utils.py
61-127): builds the event payload and marks it `final` exactly when
the status is `completed` or `failed` (lines 118-119). -/
def send_websocket_status_update (task_type task_id : String)
    (st : Status) (url err : Option String) : PushEvent :=
  ⟨task_id, task_type, st, url, err,
    decide (st = .completed ∨ st = .failed)⟩

/-- Outcome of the work inside one delivery of the worker task:
either the remote call and the storage upload succeed with a final
URL, or some step raises with a message. -/
inductive WorkerOutcome
  | success (url : String)
  | failure (msg : String)
deriving DecidableEq, Repr

/-- Embedding of one delivery of `generate_tryon_async`
(tasks.py 20-171) acting on the job record: the `processing` save,
then the success or failure save.  The returned list collects every
`send_websocket_status_update` call the task makes; the task body
contains none, so the list is empty on both paths. -/
def generate_tryon_async (r : TryonRequest) (o : WorkerOutcome) :
    TryonRequest × List PushEvent :=
  match o with
  | .success url =>
      (applyEvent (applyEvent r .workerStart) (.workerSuccess url), [])
  | .failure msg =>
      (applyEvent (applyEvent r .workerStart) (.workerFailure msg), [])

/-- One entry of the Django cache used by the windowed rate limiter: a
stored counter value and its absolute expiry instant (in seconds). -/
structure CacheEntry where
  value : ℕ
  expiry : ℕ
deriving DecidableEq, Repr

/-- Embedding of `cache.get(key, 0)`-style reads: an entry is visible
while the current time is before its expiry, otherwise the key is
absent. -/
def cacheGet (now : ℕ) (c : Option CacheEntry) : Option ℕ :=
  match c with
  | none => none
  | some e => if now < e.expiry then some e.value else none

/-- Embedding of `cache.set(key, v, ttl)`: stores the value with a
fresh expiry `now + ttl` (Django's `cache.set` always installs the
given timeout, whether or not the key already exists). -/
def cacheSet (now ttl v : ℕ) : Option CacheEntry :=
  some ⟨v, now + ttl⟩

/-- Embedding of `increment_rate_limit_count` (utils.py 78-114) for
one IP-scoped counter key: read the current count (default 0), add
one, and store the result with `cache.set(key, new_count,
cache_ttl)`. -/
def increment_rate_limit_count (now ttl : ℕ) (c : Option CacheEntry) :
    Option CacheEntry :=
  cacheSet now ttl ((cacheGet now c).getD 0 + 1)

/-- Embedding of `increment_rate_limit_count_device` (utils.py
242-278); its body is identical to the IP variant up to the cache key
name. -/
def increment_rate_limit_count_device (now ttl : ℕ)
    (c : Option CacheEntry) : Option CacheEntry :=
  cacheSet now ttl ((cacheGet now c).getD 0 + 1)

/-- The `UserRateLimit` row (src/users/models.py 11-57): the
admin-configured quota (`0` meaning unlimited) and the used count. -/
structure UserRateLimit where
  limit : ℕ
  used_count : ℕ
deriving DecidableEq, Repr

/-- Embedding of `UserRateLimit.is_limit_exceeded` (models.py
42-46). -/
def is_limit_exceeded (rl : UserRateLimit) : Bool :=
  if rl.limit = 0 then false else decide (rl.used_count ≥ rl.limit)

/-- Embedding of `UserRateLimit.increment_usage` (models.py 54-57). -/
def increment_usage (rl : UserRateLimit) : UserRateLimit :=
  { rl with used_count := rl.used_count + 1 }

/-- The dictionary returned by `get_user_rate_limit_status` (utils.py
357-402), restricted to the fields the admission logic reads. -/
structure RateStatus where
  exists_ : Bool
  is_unlimited : Bool
  current_count : ℕ
  limit : ℕ
deriving DecidableEq, Repr

/-- Embedding of `get_user_rate_limit_status` (utils.py 357-402): a
missing row yields `exists=False` with zeroed fields; otherwise the
row's fields, with `is_unlimited` iff `limit == 0`. -/
def get_user_rate_limit_status (rl : Option UserRateLimit) : RateStatus :=
  match rl with
  | none => ⟨false, false, 0, 0⟩
  | some r => ⟨true, decide (r.limit = 0), r.used_count, r.limit⟩

/-- Return value of `check_user_rate_limit`. -/
structure CheckResult where
  allowed : Bool
  status : RateStatus
deriving DecidableEq, Repr

/-- Embedding of `check_user_rate_limit` (utils.py 405-431): denied
when no row exists; always allowed when unlimited; otherwise allowed
iff `current_count < limit`. -/
def check_user_rate_limit (rl : Option UserRateLimit) : CheckResult :=
  let st := get_user_rate_limit_status rl
  if !st.exists_ then ⟨false, st⟩
  else if st.is_unlimited then ⟨true, st⟩
  else ⟨!decide (st.current_count ≥ st.limit), st⟩

/-- Embedding of `increment_user_rate_limit` (utils.py 434-468): a
missing row is left missing; a row with positive limit has its usage
incremented; a row with `limit = 0` (unlimited) is left unchanged
(the increment is skipped, lines 455-466). -/
def increment_user_rate_limit (rl : Option UserRateLimit) :
    Option UserRateLimit :=
  match rl with
  | none => none
  | some r => if 0 < r.limit then some (increment_usage r) else some r

/-- HTTP response of the admission endpoint `tryon_v2`, up to the
point the outcome is decided. -/
inductive AdmissionResponse
  | forbidden403
  | rateLimited429
  | badRequestPerson
  | badRequestGarment
  | accepted202
deriving DecidableEq, Repr

/-- Outcome of one admission request: the response, the rate-limit row
afterwards, and whether a job record was created. -/
structure AdmissionOutcome where
  response : AdmissionResponse
  rate : Option UserRateLimit
  jobCreated : Bool
deriving DecidableEq, Repr

/-- Embedding of the admission control flow of `tryon_v2` (views.py
100-260, in source order): check the user rate limit (403 when no row
exists, 429 when not allowed), then increment the counter (line 161),
then validate that `person_image` and `garment_image` are present
(400 otherwise, lines 164-176), and only then create the job record
(status `pending`). -/
def tryon_v2 (rl : Option UserRateLimit) (hasPerson hasGarment : Bool) :
    AdmissionOutcome :=
  let check := check_user_rate_limit rl
  if !check.status.exists_ then ⟨.forbidden403, rl, false⟩
  else if !check.allowed then ⟨.rateLimited429, rl, false⟩
  else
    let rl' := increment_user_rate_limit rl
    if !hasPerson then ⟨.badRequestPerson, rl', false⟩
    else if !hasGarment then ⟨.badRequestGarment, rl', false⟩
    else ⟨.accepted202, rl', true⟩

/-- The Celery `AsyncResult` fields read by the status endpoint. -/
structure TaskResult where
  state : String
  info : Option String
deriving DecidableEq, Repr

/-- Embedding of `str(task_result.info) if task_result.info else 'Task
failed'` (views.py 438): the info string when truthy, else the
synthesized message. -/
def infoMsg (t : TaskResult) : String :=
  match t.info with
  | none => "Task failed"
  | some s => if s = "" then "Task failed" else s

/-- Embedding of the reconciliation step of `tryon_task_status`
(views.py 437-446): when the Celery task state is `FAILURE` while the
record still shows `processing`, force the record to `failed` with the
truncated synthesized error; otherwise leave the record alone. -/
def reconcile (r : TryonRequest) (t : TaskResult) : TryonRequest :=
  if t.state = "FAILURE" ∧ r.status = .processing then
    { r with status := .failed,
             error_message := some (truncate500 (infoMsg t)) }
  else r

/-- The response body of `tryon_task_status`, restricted to the fields
the reconciliation claim is about. -/
structure StatusResponse where
  status : Status
  error : Option String
  generated_image_url : Option String
deriving DecidableEq, Repr

/-- Embedding of `tryon_task_status` (views.py 400-478) when a
`task_id` is supplied: reconcile, then build the response from the
(possibly updated) record — the error only on `failed` (line 458,
with the task-info fallback), the output URL only on `completed`
(line 461). -/
def tryon_task_status (r : TryonRequest) (t : TaskResult) :
    TryonRequest × StatusResponse :=
  let r2 := reconcile r t
  (r2,
    ⟨r2.status,
      if r2.status = .failed then
        some (r2.error_message.getD
          (if t.state = "FAILURE" then infoMsg t else "Unknown error"))
      else none,
      if r2.status = .completed then r2.generated_image_url else none⟩)

/-!
Theorems.  Each claim of the specification is settled below; helper
lemmas carry no claim name.
-/

/-- C5: the background worker's successful completion path
(`generate_tryon_async`, tasks.py 20-171) performs the
`processing → completed` transition without making a single
`send_websocket_status_update` call: the push list is empty, so no
terminal push (which `send_websocket_status_update` would have marked
`final = true`, websocket_utils.py 118-119) is emitted, contradicting
the claimed exactly-one final push carrying the output reference. -/
theorem C5_no_terminal_push :
    (generate_tryon_async createJob
        (.success "https://cdn/generated.png")).2 = [] ∧
    (generate_tryon_async createJob
        (.success "https://cdn/generated.png")).1.status = .completed ∧
    (send_websocket_status_update "tryon" "task-1" .completed
        (some "https://cdn/generated.png") none).final = true :=
  ⟨rfl, rfl, rfl⟩

/-- C6 counterexample: an increment of the windowed counter at time
100 on a counter created at time 0 with TTL 3600 stores expiry 3700,
not the creation-window expiry 3600 — `cache.set` refreshes the
expiry on every increment, so it is not set only on first creation. -/
theorem C6_counterexample :
    increment_rate_limit_count 0 3600 none = some ⟨1, 3600⟩ ∧
    increment_rate_limit_count 100 3600
        (increment_rate_limit_count 0 3600 none) = some ⟨2, 3700⟩ ∧
    (3700 : ℕ) ≠ 3600 := by
  refine ⟨rfl, rfl, by decide⟩

/-- C6 amended: every increment (IP- or device-scoped) bumps the
count and stores it with a fresh TTL, so the expiry is refreshed on
every increment and the window slides with the last request rather
than keeping a fixed origin. -/
theorem C6_amended_sliding_expiry (t0 t1 ttl : ℕ) (c : Option CacheEntry)
    (h1 : t1 < t0 + ttl) :
    increment_rate_limit_count t1 ttl
        (increment_rate_limit_count t0 ttl c) =
      some ⟨(cacheGet t0 c).getD 0 + 2, t1 + ttl⟩ ∧
    increment_rate_limit_count_device t1 ttl
        (increment_rate_limit_count_device t0 ttl c) =
      some ⟨(cacheGet t0 c).getD 0 + 2, t1 + ttl⟩ := by
  constructor <;>
    simp [increment_rate_limit_count, increment_rate_limit_count_device,
      cacheSet, cacheGet, h1]

/-- C6 witness. -/
theorem C6_amended_sliding_expiry_witness :
    increment_rate_limit_count 100 3600
        (increment_rate_limit_count 0 3600 none) = some ⟨2, 3700⟩ := by
  have h := C6_amended_sliding_expiry 0 100 3600 none (by decide)
  exact h.1

/-- C7 counterexample: a user with quota 0 (unlimited) and used_count
5 is admitted, but `increment_user_rate_limit` skips the increment
(utils.py 455-466), leaving used_count at 5 instead of the claimed
6. -/
theorem C7_counterexample :
    (check_user_rate_limit (some ⟨0, 5⟩)).allowed = true ∧
    increment_user_rate_limit (some ⟨0, 5⟩) = some ⟨0, 5⟩ ∧
    (some (⟨0, 5⟩ : UserRateLimit) ≠ some ⟨0, 6⟩) := by
  refine ⟨rfl, rfl, by decide⟩

/-- C7 amended: a quota-0 (unlimited) user is always admitted but the
increment is skipped, so used_count is unchanged; only users with a
positive quota have used_count incremented by an admitted request. -/
theorem C7_amended_increment (used lim : ℕ) (hlim : 0 < lim) :
    (check_user_rate_limit (some ⟨0, used⟩)).allowed = true ∧
    increment_user_rate_limit (some ⟨0, used⟩) = some ⟨0, used⟩ ∧
    increment_user_rate_limit (some ⟨lim, used⟩) = some ⟨lim, used + 1⟩ := by
  refine ⟨by simp [check_user_rate_limit, get_user_rate_limit_status],
    by simp [increment_user_rate_limit], ?_⟩
  simp [increment_user_rate_limit, hlim, increment_usage]

/-- C7 witness. -/
theorem C7_amended_increment_witness :
    (0 : ℕ) < 3 ∧
      increment_user_rate_limit (some ⟨3, 5⟩) = some ⟨3, 6⟩ :=
  ⟨by decide, (C7_amended_increment 5 3 (by decide)).2.2⟩

/-- C8: the user-scoped (administrative) check denies every principal
with no rate-limit row (fail-closed) and allows every principal with
quota 0, whatever used_count is (utils.py 405-431). -/
theorem C8_admin_check :
    (check_user_rate_limit none).allowed = false ∧
    ∀ used : ℕ, (check_user_rate_limit (some ⟨0, used⟩)).allowed = true := by
  refine ⟨rfl, fun used => ?_⟩
  simp [check_user_rate_limit, get_user_rate_limit_status]

/-- C10 counterexample: a configured user with quota 0 — admitted,
hence non-exhausted — who omits `person_image` gets the 400 response
and no job, but used_count stays 5 instead of increasing to 6 (the
quota-0 increment is skipped). -/
theorem C10_counterexample :
    tryon_v2 (some ⟨0, 5⟩) false true =
      ⟨.badRequestPerson, some ⟨0, 5⟩, false⟩ ∧
    (some (⟨0, 5⟩ : UserRateLimit) ≠ some ⟨0, 6⟩) := by
  refine ⟨rfl, by decide⟩

/-- C10 amended: for every user with a configured positive quota and
used_count below it, a request missing a required image is rejected
with a 400 validation response and creates no job, yet used_count has
already been incremented by one — the increment happens before the
file validation (views.py 161 vs 164-176); quota-0 users get the same
400 with used_count unchanged. -/
theorem C10_amended_charge (lim used : ℕ) (hasP hasG : Bool)
    (hlim : 0 < lim) (hused : used < lim)
    (hmiss : hasP = false ∨ hasG = false) :
    ((tryon_v2 (some ⟨lim, used⟩) hasP hasG).response = .badRequestPerson ∨
      (tryon_v2 (some ⟨lim, used⟩) hasP hasG).response = .badRequestGarment) ∧
    (tryon_v2 (some ⟨lim, used⟩) hasP hasG).jobCreated = false ∧
    (tryon_v2 (some ⟨lim, used⟩) hasP hasG).rate = some ⟨lim, used + 1⟩ := by
  have hne : ¬ lim = 0 := Nat.pos_iff_ne_zero.mp hlim
  have hlt : ¬ used ≥ lim := not_le.mpr hused
  rcases hmiss with hP | hG
  · subst hP
    simp [tryon_v2, check_user_rate_limit, get_user_rate_limit_status,
      increment_user_rate_limit, increment_usage, hne, hlt, hlim]
  · subst hG
    cases hasP <;>
      simp [tryon_v2, check_user_rate_limit, get_user_rate_limit_status,
        increment_user_rate_limit, increment_usage, hne, hlt, hlim]

/-- C10 witness. -/
theorem C10_amended_charge_witness :
    ((tryon_v2 (some ⟨10, 4⟩) false true).response = .badRequestPerson ∨
      (tryon_v2 (some ⟨10, 4⟩) false true).response = .badRequestGarment) ∧
    (tryon_v2 (some ⟨10, 4⟩) false true).jobCreated = false ∧
    (tryon_v2 (some ⟨10, 4⟩) false true).rate = some ⟨10, 5⟩ :=
  C10_amended_charge 10 4 false true (by decide) (by decide) (Or.inl rfl)

/-- Truncation to 500 characters never yields a longer string. -/
theorem truncate500_length (s : String) : (truncate500 s).length ≤ 500 := by
  simp only [truncate500, String.length]
  exact List.length_take_le 500 s.data

/-- C9: a status query carrying a task token whose Celery state is
`FAILURE` while the record still shows `processing` force-transitions
the record to `failed`, stores the synthesized error truncated to at
most 500 characters, and the response reflects the `failed` status
with that error (views.py 433-458). -/
theorem C9_reconciliation (r : TryonRequest) (t : TaskResult)
    (hst : r.status = .processing) (hfail : t.state = "FAILURE") :
    (tryon_task_status r t).1.status = .failed ∧
    (tryon_task_status r t).1.error_message =
      some (truncate500 (infoMsg t)) ∧
    (truncate500 (infoMsg t)).length ≤ 500 ∧
    (tryon_task_status r t).2.status = .failed ∧
    (tryon_task_status r t).2.error = some (truncate500 (infoMsg t)) := by
  refine ⟨?_, ?_, truncate500_length _, ?_, ?_⟩ <;>
    simp [tryon_task_status, reconcile, hst, hfail]

/-- C9 witness. -/
theorem C9_reconciliation_witness :
    (tryon_task_status ⟨.processing, none, none, some "tid"⟩
        ⟨"FAILURE", some "boom"⟩).1.status = .failed ∧
    (tryon_task_status ⟨.processing, none, none, some "tid"⟩
        ⟨"FAILURE", some "boom"⟩).2.status = .failed := by
  have h := C9_reconciliation ⟨.processing, none, none, some "tid"⟩
    ⟨"FAILURE", some "boom"⟩ rfl rfl
  exact ⟨h.1, h.2.2.2.1⟩

/-- A non-empty run of failed worker attempts leaves the record
failed, does not touch the output URL, and stores some truncated
error message. -/
theorem runFails_ne (msgs : List String) (r : TryonRequest)
    (h : msgs ≠ []) :
    (runFails msgs r).status = .failed ∧
    (runFails msgs r).generated_image_url = r.generated_image_url ∧
    ∃ m, (runFails msgs r).error_message = some (truncate500 m) := by
  induction msgs generalizing r with
  | nil => exact absurd rfl h
  | cons m ms ih =>
    by_cases hms : ms = []
    · subst hms
      exact ⟨rfl, rfl, m, rfl⟩
    · exact ih (failedAttempt r m) hms

/-- C1 counterexample: a job whose first worker attempt fails with
message `"boom"` and whose second attempt succeeds ends `completed`
with the output URL set but with `error_message` still `"boom"` —
the success save (tasks.py 122-124) never clears the error written by
the earlier failure save (tasks.py 157-160), so the claimed
invariant fails on this record. -/
theorem C1_counterexample :
    (runJob ["boom"] (some "https://cdn/img.png")).status = .completed ∧
    (runJob ["boom"] (some "https://cdn/img.png")).error_message =
      some "boom" ∧
    ¬ outputErrorInvariant (runJob ["boom"] (some "https://cdn/img.png")) := by
  refine ⟨by decide, by decide, by decide⟩

/-- C1 amended: along every job lifecycle (creation, any number of
failed worker attempts, optionally a final successful attempt) the
output half of the invariant holds — the output reference is non-null
iff the status is `completed` — but the error half only weakens to:
the error description is non-null iff the status is `failed`, or the
job completed after at least one earlier failed attempt (the stale
error is never cleared). -/
theorem C1_amended_invariant (failures : List String)
    (final : Option String) :
    ((runJob failures final).generated_image_url ≠ none ↔
      (runJob failures final).status = .completed) ∧
    ((runJob failures final).error_message ≠ none ↔
      ((runJob failures final).status = .failed ∨
        ((runJob failures final).status = .completed ∧ failures ≠ []))) := by
  cases final with
  | none =>
    by_cases h : failures = []
    · subst h; simp [runJob, runFails, createJob]
    · obtain ⟨hs, hu, m, he⟩ := runFails_ne failures createJob h
      simp only [runJob]
      rw [hs, hu, he]
      simp [createJob, h]
  | some url =>
    by_cases h : failures = []
    · subst h; simp [runJob, runFails, createJob, applyEvent]
    · obtain ⟨hs, hu, m, he⟩ := runFails_ne failures createJob h
      simp only [runJob, applyEvent]
      rw [he]
      simp [h]

/-- C3 counterexample: with rate-limited failures (message `"429"`)
on attempts 1 and 2 and success on attempt 3 under the default
`max_retries = 3`, the wrapper does return the success result, but
the backoff slept immediately before attempt 3 is 120 seconds, not
the claimed 60: the formula `min(60 * 2^(attempt-1), 300)` keyed to
the just-failed attempt 2 yields `min(120, 300) = 120`. -/
theorem C3_counterexample :
    (generate_scene_image
        (fun n => if n = 1 then .raiseErr ⟨false, "429"⟩ 5
          else if n = 2 then .raiseErr ⟨false, "429"⟩ 5
          else .success ⟨900, 1600⟩) 240 3) =
      ⟨.ok ⟨900, 1600⟩, 3, [60, 120]⟩ ∧
    [60, 120].getLast? = some 120 ∧ (120 : ℕ) ≠ 60 := by
  have hs : ensure_9_16 ⟨900, 1600⟩ = ⟨900, 1600⟩ := by
    norm_num [ensure_9_16]
  have hr : isRateLimitClass ⟨false, "429"⟩ = true := by decide
  refine ⟨?_, by decide, by decide⟩
  norm_num [generate_scene_image, runLoop, backoffDelay, hr, hs]

/-- C3 amended: with failures whose messages contain `"429"` on
attempts 1 and 2 and success on attempt 3 (`max_retries = 3`), the
wrapper returns the success result; the backoff slept before attempt
2 is `min(60 * 2^(1-1), 300) = 60` seconds and the backoff slept
immediately before attempt 3 is `min(60 * 2^(2-1), 300) = 120`
seconds, keyed to the attempt that just failed. -/
theorem C3_amended_backoff (e1 e2 : ExcInfo) (el1 el2 : ℕ) (img : Img)
    (timeout : ℕ)
    (h1 : strContains (strLower e1.msg) "429" = true)
    (h2 : strContains (strLower e2.msg) "429" = true) :
    generate_scene_image
        (fun n => if n = 1 then .raiseErr e1 el1
          else if n = 2 then .raiseErr e2 el2 else .success img)
        timeout 3 =
      ⟨.ok (ensure_9_16 img), 3,
        [min (60 * 2 ^ (1 - 1)) 300, min (60 * 2 ^ (2 - 1)) 300]⟩ ∧
    min (60 * 2 ^ (1 - 1)) 300 = 60 ∧ min (60 * 2 ^ (2 - 1)) 300 = 120 := by
  have hr1 : isRateLimitClass e1 = true := by
    simp [isRateLimitClass, h1]
  have hr2 : isRateLimitClass e2 = true := by
    simp [isRateLimitClass, h2]
  refine ⟨?_, by decide, by decide⟩
  norm_num [generate_scene_image, runLoop, backoffDelay, hr1, hr2]

/-- C3 witness. -/
theorem C3_amended_backoff_witness :
    strContains (strLower "429") "429" = true ∧
    generate_scene_image
        (fun n => if n = 1 then .raiseErr ⟨false, "429"⟩ 5
          else if n = 2 then .raiseErr ⟨false, "429"⟩ 7
          else .success ⟨9, 16⟩) 240 3 =
      ⟨.ok (ensure_9_16 ⟨9, 16⟩), 3,
        [min (60 * 2 ^ (1 - 1)) 300, min (60 * 2 ^ (2 - 1)) 300]⟩ :=
  ⟨by decide, (C3_amended_backoff ⟨false, "429"⟩ ⟨false, "429"⟩ 5 7 ⟨9, 16⟩
      240 (by decide) (by decide)).1⟩

/-- A run of the retry loop on a script that times out on every
attempt makes exactly the remaining attempts and ends with the
timeout-classified error, provided the fuel matches the remaining
attempt budget. -/
theorem runLoop_timesOut (script : ℕ → AttemptOutcome)
    (timeout maxRetries : ℕ) (hall : ∀ n, timesOut (script n)) :
    ∀ fuel attempt sleeps, fuel + attempt = maxRetries + 1 → 1 ≤ fuel →
      ∃ el, (runLoop script timeout maxRetries fuel attempt sleeps).result =
          .error (.timeoutErr el) ∧
        (runLoop script timeout maxRetries fuel attempt sleeps).attemptsMade =
          maxRetries := by
  intro fuel
  induction fuel with
  | zero => intro attempt sleeps hsum h1; exact absurd h1 (by decide)
  | succ f ih =>
    intro attempt sleeps hsum hf1
    rcases hall attempt with hh | ⟨e, el, he, ht⟩
    · by_cases hlt : attempt < maxRetries
      · have hf : 1 ≤ f := by omega
        have hsum' : f + (attempt + 1) = maxRetries + 1 := by omega
        have hrec := ih (attempt + 1) (sleeps ++ [min (2 ^ attempt) 10])
          hsum' hf
        simp only [runLoop, hh, hlt, if_true]
        exact hrec
      · have ha : attempt = maxRetries := by omega
        subst ha
        refine ⟨timeout, ?_, ?_⟩ <;> simp [runLoop, hh]
    · by_cases hlt : attempt < maxRetries
      · have hf : 1 ≤ f := by omega
        have hsum' : f + (attempt + 1) = maxRetries + 1 := by omega
        have hrec := ih (attempt + 1) (sleeps ++ [backoffDelay e attempt])
          hsum' hf
        simp only [runLoop, he, hlt, if_true]
        exact hrec
      · have ha : attempt = maxRetries := by omega
        subst ha
        refine ⟨el, ?_, ?_⟩ <;> simp [runLoop, he, classifyError, ht]

/-- C4: if every invocation of the remote call fails by timeout (the
thread hangs past the budget or raises a timeout-classified
exception), `generate_scene_image` makes exactly `max_retries`
attempts — never more — and fails with the timeout-classified error
carrying the elapsed time of the last attempt. -/
theorem C4_timeout_exhausts (script : ℕ → AttemptOutcome)
    (timeout maxRetries : ℕ) (hm : 1 ≤ maxRetries)
    (hall : ∀ n, timesOut (script n)) :
    ∃ el, (generate_scene_image script timeout maxRetries).result =
        .error (.timeoutErr el) ∧
      (generate_scene_image script timeout maxRetries).attemptsMade =
        maxRetries :=
  runLoop_timesOut script timeout maxRetries hall maxRetries 1 [] (by omega) hm

/-- C4 witness. -/
theorem C4_timeout_exhausts_witness :
    ∃ el, (generate_scene_image (fun _ => .hang) 240 3).result =
        .error (.timeoutErr el) ∧
      (generate_scene_image (fun _ => .hang) 240 3).attemptsMade = 3 :=
  C4_timeout_exhausts (fun _ => .hang) 240 3 (by decide) (fun _ => Or.inl rfl)

/-- Cropping the width to `9*h/16` lands within the 2% tolerance of
9:16 whenever the height is at least 47: the truncation error is at
most `15/(16*h) < 1/50`. -/
theorem cropWide_tol (h : ℕ) (hh : 47 ≤ h) :
    |((9 * h / 16 : ℕ) : ℚ) / (h : ℚ) - 9/16| < 1/50 := by
  have hpos : (0:ℚ) < h := by exact_mod_cast Nat.lt_of_lt_of_le (by norm_num) hh
  have hmod : 16 * (9 * h / 16) + 9 * h % 16 = 9 * h := Nat.div_add_mod (9*h) 16
  have hr15 : 9 * h % 16 ≤ 15 := by omega
  have hcast : (16:ℚ) * ((9 * h / 16 : ℕ) : ℚ) + ((9 * h % 16 : ℕ) : ℚ) = 9 * h := by
    exact_mod_cast hmod
  have hsub : (9:ℚ)/16 - ((9 * h / 16 : ℕ) : ℚ) / h = ((9 * h % 16 : ℕ) : ℚ)/(16*h) := by
    field_simp
    linarith
  rw [abs_sub_lt_iff]
  constructor
  · have hle : ((9 * h / 16 : ℕ) : ℚ) / h ≤ 9/16 := by
      rw [div_le_div_iff₀ hpos (by norm_num)]
      have : (16:ℚ) * ((9 * h / 16 : ℕ) : ℚ) ≤ 9 * h := by
        have hr0 : (0:ℚ) ≤ ((9 * h % 16 : ℕ) : ℚ) := by positivity
        linarith
      linarith
    linarith
  · rw [hsub, div_lt_div_iff₀ (by positivity) (by norm_num)]
    have h1 : ((9 * h % 16 : ℕ) : ℚ) ≤ 15 := by exact_mod_cast hr15
    have h2 : (47:ℚ) ≤ h := by exact_mod_cast hh
    nlinarith

/-- Cropping the height to `16*w/9` lands within the 2% tolerance of
9:16 whenever the width is at least 15: the truncation error is at
most `8/(16*26) < 1/50`. -/
theorem cropTall_tol (w : ℕ) (hw : 15 ≤ w) :
    |(w : ℚ) / ((16 * w / 9 : ℕ) : ℚ) - 9/16| < 1/50 := by
  have hH26 : 26 ≤ 16 * w / 9 := by
    have : 240 ≤ 16 * w := by omega
    calc 26 = 234 / 9 := by norm_num
    _ ≤ 16 * w / 9 := Nat.div_le_div_right (by omega)
  have hHpos : (0:ℚ) < ((16 * w / 9 : ℕ) : ℚ) := by
    exact_mod_cast Nat.lt_of_lt_of_le (by norm_num) hH26
  have hmod : 9 * (16 * w / 9) + 16 * w % 9 = 16 * w := Nat.div_add_mod (16*w) 9
  have hr8 : 16 * w % 9 ≤ 8 := by omega
  have hcast : (9:ℚ) * ((16 * w / 9 : ℕ) : ℚ) + ((16 * w % 9 : ℕ) : ℚ) = 16 * w := by
    exact_mod_cast hmod
  have hsub : (w:ℚ) / ((16 * w / 9 : ℕ) : ℚ) - 9/16 =
      ((16 * w % 9 : ℕ) : ℚ) / (16 * ((16 * w / 9 : ℕ) : ℚ)) := by
    field_simp
    linear_combination (-16 * ((16 * w / 9 : ℕ) : ℚ)) * hcast
  rw [abs_sub_lt_iff]
  constructor
  · rw [hsub, div_lt_div_iff₀ (by positivity) (by norm_num)]
    have h1 : ((16 * w % 9 : ℕ) : ℚ) ≤ 8 := by exact_mod_cast hr8
    have h2 : (26:ℚ) ≤ ((16 * w / 9 : ℕ) : ℚ) := by exact_mod_cast hH26
    nlinarith
  · have hge : (9:ℚ)/16 ≤ (w:ℚ) / ((16 * w / 9 : ℕ) : ℚ) := by
      rw [div_le_div_iff₀ (by norm_num) hHpos]
      have hr0 : (0:ℚ) ≤ ((16 * w % 9 : ℕ) : ℚ) := by positivity
      linarith
    linarith

/-- C2 counterexample: normalisation is not idempotent on every
image.  A 100x3 image is cropped to 1x3, whose ratio 1/3 is still
outside the 2% tolerance (integer truncation), so a second
application crops again to 1x1: applying the function twice differs
from applying it once. -/
theorem C2_counterexample :
    ensure_9_16 ⟨100, 3⟩ = ⟨1, 3⟩ ∧ ensure_9_16 ⟨1, 3⟩ = ⟨1, 1⟩ ∧
    ensure_9_16 (ensure_9_16 ⟨100, 3⟩) ≠ ensure_9_16 ⟨100, 3⟩ := by
  have e1 : ensure_9_16 ⟨100, 3⟩ = ⟨1, 3⟩ := by
    norm_num [ensure_9_16, abs_of_nonneg]
  have e2 : ensure_9_16 ⟨1, 3⟩ = ⟨1, 1⟩ := by
    norm_num [ensure_9_16, abs_of_nonneg]
  refine ⟨e1, e2, ?_⟩
  rw [e1, e2]
  decide

/-- Unfolding of `ensure_9_16` on an explicit width/height pair. -/
theorem ensure_9_16_mk (w h : ℕ) :
    ensure_9_16 ⟨w, h⟩ =
      if |(w : ℚ) / (h : ℚ) - 9/16| < 1/50 then ⟨w, h⟩
      else if (9 : ℚ)/16 < (w : ℚ) / (h : ℚ) then ⟨9 * h / 16, h⟩
      else ⟨w, 16 * w / 9⟩ := rfl

/-- C2 amended: an image already within the 2% tolerance of 9:16 is
returned unchanged, and applying the normalisation twice equals
applying it once for every image at least 15 pixels wide and 47
pixels tall; idempotence can fail below those sizes because the
integer-truncated crop may leave the ratio outside the tolerance. -/
theorem C2_amended_idempotent (i : Img) :
    ((|(i.width : ℚ) / (i.height : ℚ) - 9/16| < 1/50) → ensure_9_16 i = i) ∧
    (15 ≤ i.width → 47 ≤ i.height →
      ensure_9_16 (ensure_9_16 i) = ensure_9_16 i) := by
  obtain ⟨w, h⟩ := i
  simp only
  constructor
  · intro htol
    rw [ensure_9_16_mk, if_pos htol]
  · intro hw hh
    by_cases h1 : |(w : ℚ) / (h : ℚ) - 9/16| < 1/50
    · have e1 : ensure_9_16 ⟨w, h⟩ = ⟨w, h⟩ := by
        rw [ensure_9_16_mk, if_pos h1]
      rw [e1]
      exact e1
    · by_cases h2 : (9 : ℚ)/16 < (w : ℚ) / (h : ℚ)
      · have e1 : ensure_9_16 ⟨w, h⟩ = ⟨9 * h / 16, h⟩ := by
          rw [ensure_9_16_mk, if_neg h1, if_pos h2]
        rw [e1, ensure_9_16_mk, if_pos (cropWide_tol h hh)]
      · have e1 : ensure_9_16 ⟨w, h⟩ = ⟨w, 16 * w / 9⟩ := by
          rw [ensure_9_16_mk, if_neg h1, if_neg h2]
        rw [e1, ensure_9_16_mk, if_pos (cropTall_tol w hw)]

/-- C2 witness. -/
theorem C2_amended_idempotent_witness :
    ensure_9_16 ⟨900, 1600⟩ = ⟨900, 1600⟩ ∧
    ensure_9_16 (ensure_9_16 ⟨1000, 1600⟩) = ensure_9_16 ⟨1000, 1600⟩ :=
  ⟨(C2_amended_idempotent ⟨900, 1600⟩).1 (by norm_num),
   (C2_amended_idempotent ⟨1000, 1600⟩).2 (by norm_num) (by norm_num)⟩
